import Mathlib

/-!
Verification of the CV_Astro repository against its specification.

Two developments live here. The first embeds the tiered workflow policy
engine of the specification (tier catalog, session state, decision engine,
session lifecycle manager); the engine itself is not present among the
repository source files, so the definitions are modelled from the
specification text, as their doc comments state. The second shallowly
embeds the `subset_font` function of `src/scripts/subset-fontawesome.py`,
with the filesystem and the subprocess runner as explicit oracles.
-/

namespace Engine

/-- Modelled from the spec: a tier definition of the tier catalog (section 3),
missing from the repository sources. A tier has a name, an inclusive score
range, the `allow_direct_actions` flag, and an ordered list of required
step identifiers. -/
structure TierDef where
  name : String
  score_lo : Int
  score_hi : Int
  allow_direct_actions : Bool
  required_steps : List String
  deriving DecidableEq

/-- Modelled from the spec: the request class, either information-gathering
(read-only, no side effects) or mutate (observable side effects). -/
inductive ReqClass where
  | info : ReqClass
  | mutate : ReqClass
  deriving DecidableEq

/-- Modelled from the spec: an action request (section 3), missing from the
repository sources. `gate_signature` is true when the request matches the
designated entry-gate action signature; `step_name` is the prerequisite-step
identifier the payload names, if any; `cls` is the request class; `score` is
a complexity score carried by the payload, if any (section 6, complexity
score supply via step payload). -/
structure Request where
  gate_signature : Bool
  step_name : Option String
  cls : ReqClass
  score : Option Int
  deriving DecidableEq

/-- Modelled from the spec: a recorded rule breach (section 3). -/
structure Violation where
  reason : String
  missing : List String
  deriving DecidableEq

/-- Modelled from the spec: the mutable, persisted session state
(section 3), missing from the repository sources. -/
structure State where
  gate_passed : Bool
  resolved_tier : Option String
  complexity_score : Option Int
  executed_steps : List String
  violations : List Violation
  action_count : Nat
  deriving DecidableEq

/-- Modelled from the spec: the decision outcome of the decision engine
(section 4.2). -/
inductive Decision where
  | Allow : Decision
  | AllowAndRecord : String → Decision
  | Block : String → List String → Decision
  deriving DecidableEq

/-- Modelled from the spec: deterministic range lookup in the tier catalog
(section 4.1); the first matching range wins. -/
def resolve_tier (catalog : List TierDef) (score : Int) : Option TierDef :=
  catalog.find? (fun t => Decidable.decide (t.score_lo ≤ score ∧ score ≤ t.score_hi))

/-- Modelled from the spec: look a tier definition up by name in the catalog. -/
def lookup_tier (catalog : List TierDef) (n : String) : Option TierDef :=
  catalog.find? (fun t => t.name == n)

/-- Modelled from the spec: a step identifier is recognized when it occurs
in some tier's `required_steps` (section 4.2, rule 2). -/
def stepRecognized (catalog : List TierDef) (sid : String) : Bool :=
  catalog.any (fun t => t.required_steps.contains sid)

/-- Modelled from the spec: whether the request is a recognized
prerequisite-step invocation (section 4.2, rule 2). -/
def isRecognizedStep (catalog : List TierDef) (req : Request) : Bool :=
  match req.step_name with
  | some sid => stepRecognized catalog sid
  | none => false

/-- Modelled from the spec: mark a step as executed; `executed_steps` keeps
insertion order but has set semantics, so duplicates are absorbed
(section 3 and section 4.2 edge cases). -/
def insertStep (steps : List String) (sid : String) : List String :=
  if sid ∈ steps then steps else steps ++ [sid]

/-- Modelled from the spec: the step that determines the tier, named in the
`tier-undetermined` block (section 4.2, rule 4). -/
def tier_determination_step : String := "complexity-score-step"

/-- Modelled from the spec: the tier definition backing the session's
resolved tier, if any; a name that no longer resolves against the catalog
degrades to "tier undetermined" (sections 4.1 and 7). -/
def resolvedTier (catalog : List TierDef) (st : State) : Option TierDef :=
  match st.resolved_tier with
  | some n => lookup_tier catalog n
  | none => none

/-- Modelled from the spec: the unmet prerequisites of a tier, namely
`required_steps(tier)` minus `executed_steps` (section 4.2, rule 6). -/
def missingSteps (t : TierDef) (st : State) : List String :=
  t.required_steps.filter (fun s => !(Decidable.decide (s ∈ st.executed_steps)))

/-- Modelled from the spec: a complexity score carried by the request
becomes the session's score and resolves the tier (sections 3 and 6). -/
def applyScore (catalog : List TierDef) (req : Request) (st : State) : State :=
  match req.score with
  | some s =>
      { st with complexity_score := some s,
                resolved_tier := (resolve_tier catalog s).map TierDef.name }
  | none => st

/-- Modelled from the spec: rules 3 to 6 of the decision algorithm
(section 4.2), reached when the request is neither the entry gate nor a
recognized step. Rule 3 blocks the very first request of a session; rule 4
handles an unresolved tier; rule 5 lets a direct-action tier pass
everything; rule 6 enforces the minimum prerequisites and appends a
violation record on a block. -/
def enforce (catalog : List TierDef) (req : Request) (st : State) : Decision × State :=
  let st1 := { st with action_count := st.action_count + 1 }
  if st.gate_passed = false ∧ st.action_count = 0 then
    (Decision.Block ("missing-entry-gate") [], st1)
  else
    match resolvedTier catalog st with
    | none =>
        match req.cls with
        | ReqClass.info => (Decision.Allow, st1)
        | ReqClass.mutate =>
            (Decision.Block ("tier-undetermined") [tier_determination_step], st1)
    | some t =>
        if t.allow_direct_actions then
          (Decision.Allow, st1)
        else
          match req.cls with
          | ReqClass.info => (Decision.Allow, st1)
          | ReqClass.mutate =>
              let missing := missingSteps t st
              if missing.isEmpty then
                (Decision.Allow, st1)
              else
                (Decision.Block ("missing-prerequisites") missing,
                 { st1 with violations := st.violations ++ [⟨"missing-prerequisites", missing⟩] })

/-- Modelled from the spec: the decision engine `decide(request, state,
catalog) -> (Decision, NextState)` (section 4.2), missing from the
repository sources. Rules are evaluated in strict order: entry-gate
recognition first, then step recognition, then `enforce` for rules 3 to 6. -/
def decide (catalog : List TierDef) (req : Request) (st : State) : Decision × State :=
  if req.gate_signature then
    (Decision.Allow,
     { st with gate_passed := true, action_count := st.action_count + 1 })
  else
    match req.step_name with
    | some sid =>
        if stepRecognized catalog sid then
          (Decision.AllowAndRecord sid,
           applyScore catalog req
             { st with executed_steps := insertStep st.executed_steps sid,
                       action_count := st.action_count + 1 })
        else
          enforce catalog req st
    | none => enforce catalog req st

/-- Modelled from the spec: the initial session state (section 4.3). -/
def initialState : State :=
  { gate_passed := false, resolved_tier := none, complexity_score := none,
    executed_steps := [], violations := [], action_count := 0 }

/-- Modelled from the spec: `begin_session()` of the session lifecycle
manager (section 4.3), missing from the repository sources; it resets all
fields to their initial values and persists immediately. The store is the
durable record, modelled as an optional persisted state. -/
def begin_session (_store : Option State) : State × Option State :=
  (initialState, some initialState)

/-- Modelled from the spec: `load_or_init()` of the session lifecycle
manager (section 4.3), missing from the repository sources; it fetches the
current state, defaulting to `begin_session()`'s output if no prior state
exists. -/
def load_or_init (store : Option State) : State × Option State :=
  match store with
  | some s => (s, some s)
  | none => begin_session none

end Engine

/-- Outcome of one `subprocess.run` call: the completed process's return
code and captured standard error. -/
structure SubprocResult where
  returncode : Int
  stderr : String
  deriving DecidableEq

/-- A subprocess invocation either completes with a result or raises an
exception carrying a message. -/
inductive RunOutcome where
  | completed : SubprocResult → RunOutcome
  | raised : String → RunOutcome
  deriving DecidableEq

/-- Observable outcome of `subset_font`: the boolean return value and the
command line launched, if any subprocess was launched at all. -/
structure SubsetOutcome where
  retval : Bool
  launched : Option (List String)
  deriving DecidableEq

/-- The `--unicodes=...` argument built by `subset_font`: the comma-joined
`U+` ranges of the requested codepoints. -/
def unicodeRangeArg (unicodes : List String) : String :=
  "--unicodes=" ++ String.intercalate (",") (unicodes.map (fun u => "U+" ++ u))

/-- The argument tail shared by both command variants in `subset_font`. -/
def subsetArgs (input_path : String) (output_path : String)
    (unicodes : List String) : List String :=
  [input_path,
   unicodeRangeArg unicodes,
   "--output-file=" ++ output_path,
   "--flavor=woff2",
   "--layout-features=*",
   "--no-hinting",
   "--desubroutinize"]

/-- The command line `subset_font` builds: the `pyftsubset` executable when
a truthy path was given, otherwise `sys.executable -m fontTools.subset`. -/
def buildCmd (sysExecutable : String) (input_path : String) (output_path : String)
    (unicodes : List String) (pyftsubset_path : Option String) : List String :=
  match pyftsubset_path with
  | some p =>
      if p.isEmpty then
        [sysExecutable, "-m", "fontTools.subset"] ++ subsetArgs input_path output_path unicodes
      else
        [p] ++ subsetArgs input_path output_path unicodes
  | none =>
      [sysExecutable, "-m", "fontTools.subset"] ++ subsetArgs input_path output_path unicodes

/-- Shallow embedding of `subset_font` from
`src/scripts/subset-fontawesome.py`. The filesystem is the oracle `fs`
(whether a path exists) and the subprocess runner is the oracle `run`. The
function returns False early when the input font does not exist, otherwise
launches the subprocess, returns False on a nonzero return code or on an
exception (the try/except catches everything), and True otherwise. -/
def subset_font (fs : String → Bool) (run : List String → RunOutcome)
    (sysExecutable : String) (input_path : String) (output_path : String)
    (unicodes : List String) (pyftsubset_path : Option String) : SubsetOutcome :=
  if fs input_path = false then
    { retval := false, launched := none }
  else
    let cmd := buildCmd sysExecutable input_path output_path unicodes pyftsubset_path
    match run cmd with
    | RunOutcome.raised _ => { retval := false, launched := some cmd }
    | RunOutcome.completed r =>
        if r.returncode ≠ 0 then
          { retval := false, launched := some cmd }
        else
          { retval := true, launched := some cmd }

namespace Engine

/-- A sample tier with mandatory prerequisite steps, as in scenario B of
the spec. -/
def tierHigh : TierDef :=
  { name := "high", score_lo := 70, score_hi := 100,
    allow_direct_actions := false, required_steps := ["plan", "review"] }

/-- A sample direct-action tier, as in scenario A of the spec. -/
def tierLow : TierDef :=
  { name := "low", score_lo := 0, score_hi := 30,
    allow_direct_actions := true, required_steps := [] }

/-- A sample read-only request. -/
def readReq : Request :=
  { gate_signature := false, step_name := none, cls := ReqClass.info, score := none }

/-- A sample mutate-class request. -/
def mutateReq : Request :=
  { gate_signature := false, step_name := none, cls := ReqClass.mutate, score := none }

/-- A sample invocation of the prerequisite step named plan. -/
def planReq : Request :=
  { gate_signature := false, step_name := some ("plan"), cls := ReqClass.info, score := none }

/-- A sample mid-session state resolved to the direct-action tier. -/
def stLow : State :=
  { gate_passed := true, resolved_tier := some ("low"), complexity_score := some 10,
    executed_steps := [], violations := [], action_count := 1 }

/-- A sample mid-session state resolved to the prerequisite-laden tier with
no steps executed yet. -/
def stHigh : State :=
  { gate_passed := true, resolved_tier := some ("high"), complexity_score := some 85,
    executed_steps := [], violations := [], action_count := 1 }

/-- A sample mid-session state with no complexity score ever supplied. -/
def stNoTier : State :=
  { gate_passed := true, resolved_tier := none, complexity_score := none,
    executed_steps := [], violations := [], action_count := 1 }

/-- Claim C2: a request matching the designated entry-gate action signature
is always accepted by `decide` regardless of prior state: the decision is
`Allow`, the next state has `gate_passed = true` and `action_count`
incremented by one, and nothing else changes — in particular the rule takes
priority over step recognition, since the output is the same even when the
request also names a recognized step. -/
theorem entry_gate_always_accepted (catalog : List TierDef) (req : Request) (st : State)
    (h : req.gate_signature = true) :
    decide catalog req st =
      (Decision.Allow,
       { st with gate_passed := true, action_count := st.action_count + 1 }) := by
  simp [decide, h]

theorem entry_gate_always_accepted_witness :
    decide []
      { gate_signature := true, step_name := some ("plan"),
        cls := ReqClass.mutate, score := none }
      initialState =
      (Decision.Allow, { initialState with gate_passed := true, action_count := 1 }) :=
  entry_gate_always_accepted [] _ initialState rfl

/-- Claim C8: `load_or_init` immediately after `begin_session` returns a
state identical to `begin_session`'s output, which is the initial state:
`gate_passed = false`, `resolved_tier = none`, `executed_steps` and
`violations` empty, `action_count = 0`. -/
theorem begin_then_load_round_trip (store : Option State) :
    (load_or_init (begin_session store).2).1 = (begin_session store).1 ∧
    (begin_session store).1 = initialState ∧
    (begin_session store).1.gate_passed = false ∧
    (begin_session store).1.resolved_tier = none ∧
    (begin_session store).1.executed_steps = [] ∧
    (begin_session store).1.violations = [] ∧
    (begin_session store).1.action_count = 0 :=
  ⟨rfl, rfl, rfl, rfl, rfl, rfl, rfl⟩

end Engine

/-- Claim C9: when no file exists at `input_path`, `subset_font` returns
False and launches no subprocess, so the output file is never touched. -/
theorem subset_font_missing_input_no_subprocess (fs : String → Bool)
    (run : List String → RunOutcome) (sysExecutable : String)
    (input_path : String) (output_path : String)
    (unicodes : List String) (pyftsubset_path : Option String)
    (h : fs input_path = false) :
    subset_font fs run sysExecutable input_path output_path unicodes pyftsubset_path =
      { retval := false, launched := none } := by
  simp [subset_font, h]

theorem subset_font_missing_input_no_subprocess_witness :
    subset_font (fun _ => false) (fun _ => RunOutcome.completed ⟨0, ""⟩)
      ("python") ("fa-solid-900-original.woff2") ("fa-solid-900.woff2")
      [] none =
      { retval := false, launched := none } :=
  subset_font_missing_input_no_subprocess _ _ _ _ _ _ _ rfl

/-- Claim C10: when the input file exists, `subset_font` never propagates
an exception — a raising subprocess invocation yields the return value
False — and otherwise it returns True if and only if the subprocess exits
with return code 0. -/
theorem subset_font_success_iff_returncode_zero (fs : String → Bool)
    (run : List String → RunOutcome) (sysExecutable : String)
    (input_path : String) (output_path : String)
    (unicodes : List String) (pyftsubset_path : Option String)
    (h : fs input_path = true) :
    (∀ msg,
       run (buildCmd sysExecutable input_path output_path unicodes pyftsubset_path) =
         RunOutcome.raised msg →
       (subset_font fs run sysExecutable input_path output_path unicodes
          pyftsubset_path).retval = false) ∧
    ((subset_font fs run sysExecutable input_path output_path unicodes
        pyftsubset_path).retval = true ↔
     ∃ r, run (buildCmd sysExecutable input_path output_path unicodes pyftsubset_path) =
            RunOutcome.completed r ∧ r.returncode = 0) := by
  constructor
  · intro msg hm
    simp [subset_font, h, hm]
  · cases hr : run (buildCmd sysExecutable input_path output_path unicodes pyftsubset_path) with
    | raised msg => simp [subset_font, h, hr]
    | completed r =>
        by_cases hz : r.returncode = 0
        · simp [subset_font, h, hr, hz]
        · simp [subset_font, h, hr, hz]

theorem subset_font_success_iff_returncode_zero_witness :
    ((subset_font (fun _ => true) (fun _ => RunOutcome.completed ⟨0, ""⟩)
        ("python") ("in.woff2") ("out.woff2") [] none).retval = true ↔
     ∃ r, (fun (_ : List String) => RunOutcome.completed (⟨0, ""⟩ : SubprocResult))
            (buildCmd ("python") ("in.woff2") ("out.woff2") [] none) =
            RunOutcome.completed r ∧ r.returncode = 0) :=
  (subset_font_success_iff_returncode_zero (fun _ => true)
    (fun _ => RunOutcome.completed ⟨0, ""⟩) ("python") ("in.woff2") ("out.woff2")
    [] none rfl).2

namespace Engine

/-- When the request is neither the entry gate nor a recognized step,
`decide` reduces to rules 3 to 6. -/
lemma decide_eq_enforce (catalog : List TierDef) (req : Request) (st : State)
    (hg : req.gate_signature = false) (hs : isRecognizedStep catalog req = false) :
    decide catalog req st = enforce catalog req st := by
  obtain ⟨gs, sn, cls, sc⟩ := req
  simp only [Request.gate_signature] at hg
  subst hg
  cases sn with
  | none => simp [decide]
  | some sid =>
      simp only [isRecognizedStep] at hs
      simp [decide, hs]

/-- Claim C1: on the very first request of a session (gate not passed,
no request seen yet), `decide` returns `Block("missing-entry-gate", [])`
exactly when the request is neither the entry gate nor a recognized
prerequisite step; hence the first accepted request is the gate or a
recognized step. -/
theorem first_request_blocked_iff_neither_gate_nor_step
    (catalog : List TierDef) (req : Request) (st : State)
    (hg : st.gate_passed = false) (hc : st.action_count = 0) :
    ((decide catalog req st).1 = Decision.Block ("missing-entry-gate") [] ↔
      (req.gate_signature = false ∧ isRecognizedStep catalog req = false)) := by
  obtain ⟨gs, sn, cls, sc⟩ := req
  cases gs with
  | true => simp [decide, isRecognizedStep]
  | false =>
      cases sn with
      | none => simp [decide, isRecognizedStep, enforce, hg, hc]
      | some sid =>
          by_cases hr : stepRecognized catalog sid
          · simp [decide, isRecognizedStep, hr]
          · simp [decide, isRecognizedStep, hr, enforce, hg, hc]

theorem first_request_blocked_iff_neither_gate_nor_step_witness :
    ((decide [] mutateReq initialState).1 = Decision.Block ("missing-entry-gate") [] ↔
      (mutateReq.gate_signature = false ∧ isRecognizedStep [] mutateReq = false)) :=
  first_request_blocked_iff_neither_gate_nor_step [] mutateReq initialState rfl rfl

/-- Claim C5: past rules 1 to 3, in a session whose `resolved_tier` is
null, every information-gathering request is allowed unconditionally and
every mutate-class request is blocked with `tier-undetermined`, naming the
step that determines the tier. -/
theorem tier_undetermined_policy (catalog : List TierDef) (req : Request) (st : State)
    (hg : req.gate_signature = false)
    (hs : isRecognizedStep catalog req = false)
    (h3 : st.gate_passed = true ∨ st.action_count ≠ 0)
    (ht : st.resolved_tier = none) :
    (req.cls = ReqClass.info → (decide catalog req st).1 = Decision.Allow) ∧
    (req.cls = ReqClass.mutate →
      (decide catalog req st).1 =
        Decision.Block ("tier-undetermined") [tier_determination_step]) := by
  have hcond : ¬ (st.gate_passed = false ∧ st.action_count = 0) := by
    rcases h3 with h | h
    · simp [h]
    · simp [h]
  rw [decide_eq_enforce catalog req st hg hs]
  constructor
  · intro hcls
    simp [enforce, hcond, resolvedTier, ht, hcls]
  · intro hcls
    simp [enforce, hcond, resolvedTier, ht, hcls]

theorem tier_undetermined_policy_witness :
    (mutateReq.cls = ReqClass.info → (decide [] mutateReq stNoTier).1 = Decision.Allow) ∧
    (mutateReq.cls = ReqClass.mutate →
      (decide [] mutateReq stNoTier).1 =
        Decision.Block ("tier-undetermined") [tier_determination_step]) :=
  tier_undetermined_policy [] mutateReq stNoTier rfl rfl (Or.inl rfl) rfl

/-- Claim C4: when the session's resolved tier allows direct actions, no
request whatsoever is blocked for prerequisite reasons, and every request
that reaches rule 5 (neither gate nor step, past the first-request gate
check) is allowed unconditionally. -/
theorem direct_tier_never_prereq_blocked
    (catalog : List TierDef) (req : Request) (st : State) (t : TierDef)
    (ht : resolvedTier catalog st = some t)
    (hd : t.allow_direct_actions = true) :
    (∀ m, (decide catalog req st).1 ≠ Decision.Block ("missing-prerequisites") m) ∧
    (req.gate_signature = false → isRecognizedStep catalog req = false →
      (st.gate_passed = true ∨ st.action_count ≠ 0) →
      (decide catalog req st).1 = Decision.Allow) := by
  constructor
  · intro m
    by_cases hgs : req.gate_signature = true
    · simp [decide, hgs]
    · have hgs' : req.gate_signature = false := by
        cases hq : req.gate_signature
        · rfl
        · exact absurd hq hgs
      by_cases hrs : isRecognizedStep catalog req = true
      · obtain ⟨gs, sn, cls, sc⟩ := req
        simp only [Request.gate_signature] at hgs'
        subst hgs'
        cases sn with
        | none => simp [isRecognizedStep] at hrs
        | some sid =>
            simp only [isRecognizedStep] at hrs
            simp [decide, hrs]
      · have hrs' : isRecognizedStep catalog req = false := by
          cases hq : isRecognizedStep catalog req
          · rfl
          · exact absurd hq hrs
        rw [decide_eq_enforce catalog req st hgs' hrs']
        by_cases hcond : st.gate_passed = false ∧ st.action_count = 0
        · simp [enforce, hcond]
        · cases hcls : req.cls with
          | info => simp [enforce, hcond, ht, hd, hcls]
          | mutate => simp [enforce, hcond, ht, hd, hcls]
  · intro hg hs h3
    have hcond : ¬ (st.gate_passed = false ∧ st.action_count = 0) := by
      rcases h3 with h | h
      · simp [h]
      · simp [h]
    rw [decide_eq_enforce catalog req st hg hs]
    simp [enforce, hcond, ht, hd]

theorem direct_tier_never_prereq_blocked_witness :
    (∀ m, (decide [tierLow] mutateReq stLow).1 ≠ Decision.Block ("missing-prerequisites") m) ∧
    (mutateReq.gate_signature = false → isRecognizedStep [tierLow] mutateReq = false →
      (stLow.gate_passed = true ∨ stLow.action_count ≠ 0) →
      (decide [tierLow] mutateReq stLow).1 = Decision.Allow) :=
  direct_tier_never_prereq_blocked [tierLow] mutateReq stLow tierLow rfl rfl

/-- Claim C3: for a session resolved to a tier that does not allow direct
actions, past rules 1 to 3, a mutate-class request is blocked iff the set
`required_steps(tier)` minus `executed_steps` is non-empty; the block
reports exactly that set and appends a violation record, and otherwise the
request is allowed. -/
theorem missing_prereqs_blocked_iff_nonempty
    (catalog : List TierDef) (req : Request) (st : State) (t : TierDef)
    (hg : req.gate_signature = false)
    (hs : isRecognizedStep catalog req = false)
    (hp : st.gate_passed = true)
    (ht : resolvedTier catalog st = some t)
    (hd : t.allow_direct_actions = false)
    (hm : req.cls = ReqClass.mutate) :
    (missingSteps t st ≠ [] →
       decide catalog req st =
         (Decision.Block ("missing-prerequisites") (missingSteps t st),
          { st with action_count := st.action_count + 1,
                    violations :=
                      st.violations ++ [⟨"missing-prerequisites", missingSteps t st⟩] })) ∧
    (missingSteps t st = [] →
       decide catalog req st =
         (Decision.Allow, { st with action_count := st.action_count + 1 })) := by
  have hcond : ¬ (st.gate_passed = false ∧ st.action_count = 0) := by
    simp [hp]
  rw [decide_eq_enforce catalog req st hg hs]
  constructor
  · intro hne
    have hie : (missingSteps t st).isEmpty = false := by
      cases hq : missingSteps t st with
      | nil => exact absurd hq hne
      | cons a l => simp [List.isEmpty]
    simp [enforce, hcond, ht, hd, hm, hie]
  · intro hni
    simp [enforce, hcond, ht, hd, hm, hni]

theorem missing_prereqs_blocked_iff_nonempty_witness :
    (missingSteps tierHigh stHigh ≠ [] →
       decide [tierHigh] mutateReq stHigh =
         (Decision.Block ("missing-prerequisites") (missingSteps tierHigh stHigh),
          { stHigh with action_count := stHigh.action_count + 1,
                        violations :=
                          stHigh.violations ++
                            [⟨"missing-prerequisites", missingSteps tierHigh stHigh⟩] })) ∧
    (missingSteps tierHigh stHigh = [] →
       decide [tierHigh] mutateReq stHigh =
         (Decision.Allow, { stHigh with action_count := stHigh.action_count + 1 })) :=
  missing_prereqs_blocked_iff_nonempty [tierHigh] mutateReq stHigh tierHigh
    rfl rfl rfl rfl rfl rfl

end Engine

namespace Engine

/-- Every block produced by rules 3 to 6 is one of the three taxonomy
shapes: the entry-gate block with an empty list, the tier-undetermined
block naming the tier-determining step, or a prerequisite block with a
non-empty missing list. -/
lemma enforce_block_shape (catalog : List TierDef) (r : Request) (st : State)
    (reason : String) (m : List String)
    (h : (enforce catalog r st).1 = Decision.Block reason m) :
    (reason = "missing-entry-gate" ∧ m = []) ∨
    (reason = "tier-undetermined" ∧ m = [tier_determination_step]) ∨
    (reason = "missing-prerequisites" ∧ m ≠ []) := by
  by_cases hcond : st.gate_passed = false ∧ st.action_count = 0
  · simp [enforce, hcond] at h
    exact Or.inl ⟨h.1.symm, h.2⟩
  · cases hx : resolvedTier catalog st with
    | none =>
        cases hcls : r.cls with
        | info => simp [enforce, hcond, hx, hcls] at h
        | mutate =>
            simp [enforce, hcond, hx, hcls] at h
            exact Or.inr (Or.inl ⟨h.1.symm, h.2.symm⟩)
    | some t =>
        cases hd : t.allow_direct_actions with
        | true => simp [enforce, hcond, hx, hd] at h
        | false =>
            cases hcls : r.cls with
            | info => simp [enforce, hcond, hx, hd, hcls] at h
            | mutate =>
                cases hme : (missingSteps t st).isEmpty with
                | true => simp [enforce, hcond, hx, hd, hcls, hme] at h
                | false =>
                    simp [enforce, hcond, hx, hd, hcls, hme] at h
                    refine Or.inr (Or.inr ⟨h.1.symm, ?_⟩)
                    intro hnil
                    rw [h.2.trans hnil] at hme
                    simp [List.isEmpty] at hme

/-- Counterexample to claim C6 as stated: on the very first request of a
session, a request that is neither the gate nor a recognized step is
blocked with `missing-entry-gate` and an empty missing list, so a block
carrying no missing identifiers does occur. -/
theorem block_with_no_identifiers_exists :
    (decide [] readReq initialState).1 = Decision.Block ("missing-entry-gate") [] ∧
    ¬ (∀ reason m, (decide [] readReq initialState).1 = Decision.Block reason m → m ≠ []) := by
  constructor
  · rfl
  · intro hall
    exact hall ("missing-entry-gate") [] rfl rfl

/-- Claim C6 amended: every block returned by `decide` carries a symbolic
reason from the violation taxonomy, and every block other than the
entry-gate block (whose reason itself names the required recovery action
and whose missing list is empty) lists the specific missing identifiers:
tier-undetermined blocks name the tier-determining step and
missing-prerequisites blocks carry a non-empty missing list. -/
theorem block_always_identifies_cause
    (catalog : List TierDef) (req : Request) (st : State)
    (reason : String) (m : List String)
    (h : (decide catalog req st).1 = Decision.Block reason m) :
    (reason = "missing-entry-gate" ∧ m = []) ∨
    (reason = "tier-undetermined" ∧ m = [tier_determination_step]) ∨
    (reason = "missing-prerequisites" ∧ m ≠ []) := by
  obtain ⟨gs, sn, cls, sc⟩ := req
  cases gs with
  | true => simp [decide] at h
  | false =>
      cases sn with
      | none =>
          rw [decide_eq_enforce catalog ⟨false, none, cls, sc⟩ st rfl rfl] at h
          exact enforce_block_shape catalog _ st reason m h
      | some sid =>
          cases hr : stepRecognized catalog sid with
          | true => simp [decide, hr] at h
          | false =>
              rw [decide_eq_enforce catalog ⟨false, some sid, cls, sc⟩ st rfl
                    (by simp [isRecognizedStep, hr])] at h
              exact enforce_block_shape catalog _ st reason m h

theorem block_always_identifies_cause_witness :
    ("tier-undetermined" = "missing-entry-gate" ∧
       [tier_determination_step] = ([] : List String)) ∨
    ("tier-undetermined" = "tier-undetermined" ∧
       [tier_determination_step] = [tier_determination_step]) ∨
    ("tier-undetermined" = "missing-prerequisites" ∧
       [tier_determination_step] ≠ ([] : List String)) :=
  block_always_identifies_cause [] mutateReq stNoTier ("tier-undetermined")
    [tier_determination_step] rfl

end Engine

namespace Engine

/-- Absorbing a score never changes `gate_passed`. -/
lemma applyScore_gate (catalog : List TierDef) (req : Request) (st : State) :
    (applyScore catalog req st).gate_passed = st.gate_passed := by
  cases hsc : req.score <;> simp [applyScore, hsc]

/-- Absorbing a score never changes `executed_steps`. -/
lemma applyScore_executed (catalog : List TierDef) (req : Request) (st : State) :
    (applyScore catalog req st).executed_steps = st.executed_steps := by
  cases hsc : req.score <;> simp [applyScore, hsc]

/-- Absorbing a score never changes `action_count`. -/
lemma applyScore_count (catalog : List TierDef) (req : Request) (st : State) :
    (applyScore catalog req st).action_count = st.action_count := by
  cases hsc : req.score <;> simp [applyScore, hsc]

/-- Inserting an already-inserted step a second time changes nothing: the
set semantics of `executed_steps` absorb duplicates. -/
lemma insertStep_idem (es : List String) (sid : String) :
    insertStep (insertStep es sid) sid = insertStep es sid := by
  by_cases h : sid ∈ es
  · simp [insertStep, h]
  · simp [insertStep, h]

/-- Rules 3 to 6 decide identically on two states that agree on the gate
flag, the resolved tier, the executed steps, and on whether any request
has been seen yet. -/
lemma enforce_fst_congr (catalog : List TierDef) (r : Request) (a b : State)
    (hg : a.gate_passed = b.gate_passed)
    (hrt : a.resolved_tier = b.resolved_tier)
    (hes : a.executed_steps = b.executed_steps)
    (hz : (a.action_count = 0) ↔ (b.action_count = 0)) :
    (enforce catalog r a).1 = (enforce catalog r b).1 := by
  have hrt2 : resolvedTier catalog a = resolvedTier catalog b := by
    simp [resolvedTier, hrt]
  by_cases hcond : b.gate_passed = false ∧ b.action_count = 0
  · have hconda : a.gate_passed = false ∧ a.action_count = 0 :=
      ⟨hg.trans hcond.1, hz.mpr hcond.2⟩
    simp [enforce, hcond, hconda]
  · have hconda : ¬ (a.gate_passed = false ∧ a.action_count = 0) := by
      intro hx
      exact hcond ⟨hg.symm.trans hx.1, hz.mp hx.2⟩
    cases hx : resolvedTier catalog b with
    | none =>
        have hxa : resolvedTier catalog a = none := hrt2.trans hx
        cases hcls : r.cls <;> simp [enforce, hcond, hconda, hx, hxa, hcls]
    | some t =>
        have hxa : resolvedTier catalog a = some t := hrt2.trans hx
        have hms : missingSteps t a = missingSteps t b := by
          simp [missingSteps, hes]
        cases hd : t.allow_direct_actions with
        | true => simp [enforce, hcond, hconda, hx, hxa, hd]
        | false =>
            cases hcls : r.cls with
            | info => simp [enforce, hcond, hconda, hx, hxa, hd, hcls]
            | mutate =>
                cases hme : (missingSteps t b).isEmpty with
                | true => simp [enforce, hcond, hconda, hx, hxa, hd, hcls, hms, hme]
                | false => simp [enforce, hcond, hconda, hx, hxa, hd, hcls, hms, hme]

/-- The decision component of `decide` is identical on two states that
agree on the gate flag, the resolved tier, the executed steps, and on
whether any request has been seen yet. -/
lemma decide_fst_congr (catalog : List TierDef) (r : Request) (a b : State)
    (hg : a.gate_passed = b.gate_passed)
    (hrt : a.resolved_tier = b.resolved_tier)
    (hes : a.executed_steps = b.executed_steps)
    (hz : (a.action_count = 0) ↔ (b.action_count = 0)) :
    (decide catalog r a).1 = (decide catalog r b).1 := by
  obtain ⟨gs, sn, cls, sc⟩ := r
  cases gs with
  | true => simp [decide]
  | false =>
      cases sn with
      | none =>
          rw [decide_eq_enforce catalog ⟨false, none, cls, sc⟩ a rfl rfl,
              decide_eq_enforce catalog ⟨false, none, cls, sc⟩ b rfl rfl]
          exact enforce_fst_congr catalog _ a b hg hrt hes hz
      | some sid =>
          cases hr : stepRecognized catalog sid with
          | true => simp [decide, hr]
          | false =>
              rw [decide_eq_enforce catalog ⟨false, some sid, cls, sc⟩ a rfl
                    (by simp [isRecognizedStep, hr]),
                  decide_eq_enforce catalog ⟨false, some sid, cls, sc⟩ b rfl
                    (by simp [isRecognizedStep, hr])]
              exact enforce_fst_congr catalog _ a b hg hrt hes hz

/-- Claim C7: invoking the same recognized prerequisite step twice through
`decide` is idempotent: the second invocation does not error (it is again
accepted, recording the step), it leaves `executed_steps` unchanged, and
the decision for any third request after the two invocations is identical
to the decision after a single invocation. -/
theorem step_invocation_idempotent
    (catalog : List TierDef) (req r : Request) (st : State) (sid : String)
    (hg : req.gate_signature = false)
    (hsn : req.step_name = some sid)
    (hr : stepRecognized catalog sid = true) :
    (decide catalog req (decide catalog req st).2).1 = Decision.AllowAndRecord sid ∧
    ((decide catalog req (decide catalog req st).2).2).executed_steps =
      ((decide catalog req st).2).executed_steps ∧
    (decide catalog r (decide catalog req (decide catalog req st).2).2).1 =
      (decide catalog r (decide catalog req st).2).1 := by
  have hstep : ∀ s : State, decide catalog req s =
      (Decision.AllowAndRecord sid,
       applyScore catalog req
         { s with executed_steps := insertStep s.executed_steps sid,
                  action_count := s.action_count + 1 }) := by
    intro s
    simp [decide, hg, hsn, hr]
  have h1 := hstep st
  have h2 := hstep (decide catalog req st).2
  have e_es : ((decide catalog req (decide catalog req st).2).2).executed_steps =
      ((decide catalog req st).2).executed_steps := by
    rw [h2, h1]
    simp [applyScore_executed, insertStep_idem]
  refine ⟨?_, e_es, ?_⟩
  · rw [h2]
  · have e_gate : ((decide catalog req (decide catalog req st).2).2).gate_passed =
        ((decide catalog req st).2).gate_passed := by
      rw [h2, h1]
      simp [applyScore_gate]
    have e_rt : ((decide catalog req (decide catalog req st).2).2).resolved_tier =
        ((decide catalog req st).2).resolved_tier := by
      rw [h2, h1]
      cases hsc : req.score with
      | none => simp [applyScore, hsc]
      | some s => simp [applyScore, hsc]
    have e_z : (((decide catalog req (decide catalog req st).2).2).action_count = 0) ↔
        (((decide catalog req st).2).action_count = 0) := by
      rw [h2, h1]
      simp [applyScore_count]
    exact decide_fst_congr catalog r _ _ e_gate e_rt e_es e_z

theorem step_invocation_idempotent_witness :
    (decide [tierHigh] planReq (decide [tierHigh] planReq initialState).2).1 =
      Decision.AllowAndRecord ("plan") ∧
    ((decide [tierHigh] planReq (decide [tierHigh] planReq initialState).2).2).executed_steps =
      ((decide [tierHigh] planReq initialState).2).executed_steps ∧
    (decide [tierHigh] mutateReq
        (decide [tierHigh] planReq (decide [tierHigh] planReq initialState).2).2).1 =
      (decide [tierHigh] mutateReq (decide [tierHigh] planReq initialState).2).1 :=
  step_invocation_idempotent [tierHigh] planReq mutateReq initialState ("plan")
    rfl rfl rfl

end Engine
